import Mathlib

/-!
Shallow embedding of the alice-lg looking-glass backend: the birdwatcher
response parsers, the per-backend routes store with its refresh state
machine, and the query validation helpers of the HTTP layer.

Modelling conventions:
  - Dynamically typed Go values (interface\x7b\x7d trees decoded from JSON)
    become the inductive type GoValue.  Wire numbers arrive in Go as
    float64 and are only ever truncated to int by the code under study,
    so numeric leaves carry an Int and the int(x) conversion is the
    identity.
  - A failed Go type assertion v.(T) aborts the enclosing parse; every
    fallible function therefore returns Except String.
  - time.Time instants and time.Duration values are integers on an
    abstract timeline; the Go zero time is the integer 0 and the current
    instant is an explicit parameter called now.
-/

/-- One node of the loosely typed value tree a backend response decodes to. -/
inductive GoValue where
  | vnull : GoValue
  | vstr : String → GoValue
  | vnum : Int → GoValue
  | vbool : Bool → GoValue
  | vlist : List GoValue → GoValue
  | vmap : List (String × GoValue) → GoValue

/-- A Go map[string]interface, modelled as an association list. -/
abbrev GoMap := List (String × GoValue)

/-- Indexing a Go map returns the zero value (nil) for a missing key. -/
def mapGet (m : GoMap) (k : String) : GoValue :=
  match m.find? (fun p => p.1 == k) with
  | some p => p.2
  | none => GoValue.vnull

/-- Go type assertion v.(string). -/
def asString : GoValue → Except String String
  | .vstr s => .ok s
  | _ => .error ("interface conversion: not a string")

/-- Go type assertion v.(float64), numeric leaves modelled as Int. -/
def asNum : GoValue → Except String Int
  | .vnum n => .ok n
  | _ => .error ("interface conversion: not a float64")

/-- Go type assertion v.(map[string]interface). -/
def asMap : GoValue → Except String GoMap
  | .vmap m => .ok m
  | _ => .error ("interface conversion: not a map")

/-- Go type assertion v.([]interface). -/
def asList : GoValue → Except String (List GoValue)
  | .vlist l => .ok l
  | _ => .error ("interface conversion: not a list")

/-- True when the computation failed. -/
def isErrB : Except String α → Bool
  | .error _ => true
  | .ok _ => false

@[simp] theorem exceptBind_ok (a : α) (f : α → Except String β) :
    (Except.ok a : Except String α).bind f = f a := rfl

@[simp] theorem exceptBind_err (e : String) (f : α → Except String β) :
    (Except.error e : Except String α).bind f = Except.error e := rfl

@[simp] theorem isErrB_ok (a : α) : isErrB (Except.ok a : Except String α) = false := rfl

@[simp] theorem isErrB_err (e : String) :
    isErrB (Except.error e : Except String α) = true := rfl

/-- Digits of a decimal literal folded to a Nat. -/
def digitsToNat (cs : List Char) : Nat :=
  cs.foldl (fun n c => n * 10 + (c.toNat - 48)) 0

/-- Go strconv.Atoi syntax: an optional sign followed by one or more
digits.  Returns none exactly when Go reports a syntax error (integer
ranges are unbounded here, so range errors do not arise). -/
def parseGoInt (s : String) : Option Int :=
  match s.data with
  | [] => none
  | c :: rest =>
    if c.toNat = 45 then
      if rest ≠ [] ∧ rest.all (fun d => d.isDigit)
      then some (-(digitsToNat rest : Int)) else none
    else if c.toNat = 43 then
      if rest ≠ [] ∧ rest.all (fun d => d.isDigit)
      then some ((digitsToNat rest : Int)) else none
    else
      if (c :: rest).all (fun d => d.isDigit)
      then some ((digitsToNat (c :: rest) : Int)) else none

/-- Go pattern n, _ := strconv.Atoi(s): the zero result of a failed
conversion is used as the value. -/
def atoiOrZero (s : String) : Int :=
  match parseGoInt s with
  | some n => n
  | none => 0

/-- Go len(s) on a string counts UTF-8 bytes, not characters. -/
def goStrLen (s : String) : Nat :=
  s.data.foldl (fun n c => n + c.utf8Size) 0

/-- Layout constant SERVER_TIME (time.RFC3339Nano). -/
def SERVER_TIME : String := "2006-01-02T15:04:05.999999999Z07:00"

/-- Layout constant SERVER_TIME_SHORT. -/
def SERVER_TIME_SHORT : String := "2006-01-02 15:04:05"

/-- Go stdlib time.LoadLocation, modelled with a UTC-only zone database:
the zone names resolved here all denote offset 0, anything else is an
error.  No claim depends on non-UTC offsets. -/
def loadLocation (tz : String) : Except String Int :=
  if tz = "" ∨ tz = "UTC" ∨ tz = "Local" then .ok 0
  else .error ("unknown time zone")

/-- All characters are decimal digits. -/
def allDigits (s : String) : Bool :=
  s.length > 0 && s.data.all (fun d => d.isDigit)

/-- Parse one textual timestamp in the SERVER_TIME_SHORT layout
(YYYY-MM-DD HH:MM:SS) to an instant on the abstract integer timeline,
via a simplified linear calendar.  Only the shape of the result matters
to the claims (never the absolute value). -/
def parseShortTime (s : String) : Option Int :=
  match s.splitOn (" ") with
  | [d, t] =>
    match d.splitOn ("-"), t.splitOn (":") with
    | [y, mo, da], [h, mi, se] =>
      if allDigits y ∧ allDigits mo ∧ allDigits da ∧
         allDigits h ∧ allDigits mi ∧ allDigits se then
        some ((((digitsToNat y.data) * 372 + ((digitsToNat mo.data) - 1) * 31 +
          ((digitsToNat da.data) - 1)) * 86400 +
          (digitsToNat h.data) * 3600 + (digitsToNat mi.data) * 60 +
          (digitsToNat se.data) : Nat) : Int)
      else none
    | _, _ => none
  | _ => none

/-- Go stdlib time.ParseInLocation, modelled for the one layout the
parsers under study feed into it.  A Go parse error carries the zero
time as its value, which the model drops because every caller either
propagates the error or substitutes the zero time. -/
def parseInLocation (layout : String) (loc : Int) (s : String) : Except String Int :=
  if layout = SERVER_TIME_SHORT then
    match parseShortTime s with
    | some t => .ok (t - loc)
    | none => .error ("cannot parse time")
  else .error ("layout not modelled")

/-- Per-backend configuration holding the timezone used to interpret
backend timestamps. -/
structure Config where
  Timezone : String

/-- parseServerTime: a non-string raw value yields the zero time and no
error; a string value is parsed in the configured location. -/
def parseServerTime (value : GoValue) (layout tz : String) : Except String Int :=
  match value with
  | .vstr s => (loadLocation tz).bind (fun loc => parseInLocation layout loc s)
  | _ => .ok 0

/-- parseRelativeServerTime: time.Since of the parsed event time.  The
Go code discards the error of parseServerTime and uses the returned
time value, which is the zero time (0) on every error path. -/
def parseRelativeServerTime (now : Int) (uptime : GoValue) (cfg : Config) : Int :=
  match parseServerTime uptime SERVER_TIME_SHORT cfg.Timezone with
  | .ok t => now - t
  | .error _ => now - 0

/-- An ordered sequence of integers forming one BGP community. -/
abbrev Community := List Int

/-- BGP attribute block of one route, as built by parseRouteBgpInfo. -/
structure BgpInfo where
  Origin : String
  AsPath : List Int
  NextHop : String
  LocalPref : Int
  Med : Int
  Communities : List Community
  LargeCommunities : List Community

/-- One BGP peering session as built by parseNeighbours. -/
structure Neighbour where
  Id : String
  Address : String
  Asn : Int
  State : String
  Description : String
  RoutesReceived : Int
  RoutesExported : Int
  RoutesFiltered : Int
  RoutesPreferred : Int
  Uptime : Int
  LastError : String
  Details : GoMap

/-- One routing table entry as built by parseRoutes.  The Go field
named Type is rendered RType here because Type is reserved in Lean. -/
structure Route where
  Id : String
  NeighbourId : String
  Network : String
  Interface : String
  Gateway : String
  Metric : Int
  Age : Int
  RType : List String
  Bgp : BgpInfo
  Details : GoMap

/-- mustString: use the value when it is a string, else the fallback. -/
def mustString (value : GoValue) (fallback : String) : String :=
  match value with
  | .vstr s => s
  | _ => fallback

/-- The string content of a leaf, when it is one. -/
def toStr : GoValue → Option String
  | .vstr s => some s
  | _ => none

/-- mustStringList: assert a list, keep only its string elements. -/
def mustStringList (data : GoValue) : Except String (List String) :=
  (asList data).bind (fun l => .ok (l.filterMap toStr))

/-- parseIntList: the string elements converted with Atoi, a failed
conversion contributing its zero result. -/
def parseIntList (data : GoValue) : Except String (List Int) :=
  (mustStringList data).bind (fun l => .ok (l.map atoiOrZero))

/-- Loop body of parseBgpCommunities over one community: every member
is asserted to be a number. -/
def parseCommunity : List GoValue → Except String Community
  | [] => .ok []
  | v :: rest =>
    (asNum v).bind (fun n =>
    (parseCommunity rest).bind (fun ns => .ok (n :: ns)))

/-- Outer loop of parseBgpCommunities: every element is asserted to be
a list and decoded as one community. -/
def parseCommunitiesList : List GoValue → Except String (List Community)
  | [] => .ok []
  | c :: rest =>
    (asList c).bind (fun cl =>
    (parseCommunity cl).bind (fun comm =>
    (parseCommunitiesList rest).bind (fun cs => .ok (comm :: cs))))

/-- parseBgpCommunities: data that is not a list at the top level yields
the empty set; a list is decoded community by community. -/
def parseBgpCommunities (data : GoValue) : Except String (List Community) :=
  match data with
  | .vlist l => parseCommunitiesList l
  | _ => .ok []

/-- parseRouteBgpInfo, in the evaluation order of the Go function:
as_path, communities, large_communities, the local_pref string
assertion, the tolerant med extraction, then the literal with its
mustString fallbacks. -/
def parseRouteBgpInfo (data : GoValue) : Except String BgpInfo :=
  (asMap data).bind (fun bgpData =>
  (parseIntList (mapGet bgpData ("as_path"))).bind (fun asPath =>
  (parseBgpCommunities (mapGet bgpData ("communities"))).bind (fun communities =>
  (parseBgpCommunities (mapGet bgpData ("large_communities"))).bind (fun largeCommunities =>
  (asString (mapGet bgpData ("local_pref"))).bind (fun lp =>
  (.ok { Origin := mustString (mapGet bgpData ("origin")) ("unknown"),
         AsPath := asPath,
         NextHop := mustString (mapGet bgpData ("next_hop")) ("unknown"),
         LocalPref := atoiOrZero lp,
         Med := (match mapGet bgpData ("med") with
                 | .vstr ms => atoiOrZero ms
                 | _ => 0),
         Communities := communities,
         LargeCommunities := largeCommunities }))))))

/-- Lexicographic comparison of character lists by code point, the
natural total order on strings. -/
def charListLe : List Char → List Char → Bool
  | [], _ => true
  | _ :: _, [] => false
  | c :: cs, d :: ds =>
    if c.toNat < d.toNat then true
    else if d.toNat < c.toNat then false
    else charListLe cs ds

/-- Byte-for-byte string order via the underlying characters. -/
def strLe (a b : String) : Prop := charListLe a.data b.data = true

theorem charToNat_inj {a b : Char} (h : a.toNat = b.toNat) : a = b := by
  cases a; cases b
  simp only [Char.toNat] at h
  congr 1
  exact UInt32.toNat.inj h

theorem charListLe_total : ∀ a b, charListLe a b = true ∨ charListLe b a = true
  | [], _ => Or.inl rfl
  | _ :: _, [] => Or.inr rfl
  | c :: cs, d :: ds => by
    simp only [charListLe]
    rcases Nat.lt_trichotomy c.toNat d.toNat with h | h | h
    · left
      simp [h]
    · have h1 : ¬ c.toNat < d.toNat := by omega
      have h2 : ¬ d.toNat < c.toNat := by omega
      rcases charListLe_total cs ds with hh | hh
      · left
        simp [h1, h2, hh]
      · right
        simp [h1, h2, hh]
    · right
      simp [h]

theorem charListLe_trans : ∀ a b c, charListLe a b = true → charListLe b c = true →
    charListLe a c = true
  | [], _, _, _, _ => rfl
  | _ :: _, [], _, h, _ => by simp [charListLe] at h
  | _ :: _, _ :: _, [], _, h => by simp [charListLe] at h
  | x :: xs, y :: ys, z :: zs, h₁, h₂ => by
    simp only [charListLe] at h₁ h₂ ⊢
    split at h₁ <;> split at h₂ <;> rename_i hxy hyz
    · simp; omega
    · split at h₂ <;> rename_i hzy
      · exact absurd h₂ (by simp)
      · have : y.toNat = z.toNat := by omega
        simp; omega
    · split at h₁ <;> rename_i hyx
      · exact absurd h₁ (by simp)
      · have : x.toNat = y.toNat := by omega
        simp; omega
    · split at h₁ <;> rename_i hyx
      · exact absurd h₁ (by simp)
      · split at h₂ <;> rename_i hzy
        · exact absurd h₂ (by simp)
        · have hxz : ¬ x.toNat < z.toNat ∧ ¬ z.toNat < x.toNat := by omega
          simp [hxz.1, hxz.2]
          exact charListLe_trans xs ys zs h₁ h₂

theorem charListLe_antisymm : ∀ a b, charListLe a b = true → charListLe b a = true → a = b
  | [], [], _, _ => rfl
  | [], _ :: _, _, h => by simp [charListLe] at h
  | _ :: _, [], h, _ => by simp [charListLe] at h
  | x :: xs, y :: ys, h₁, h₂ => by
    simp only [charListLe] at h₁ h₂
    rcases Nat.lt_trichotomy x.toNat y.toNat with h | h | h
    · rw [if_neg (by omega : ¬ y.toNat < x.toNat), if_pos h] at h₂
      simp at h₂
    · have hxy : ¬ x.toNat < y.toNat := by omega
      have hyx : ¬ y.toNat < x.toNat := by omega
      rw [if_neg hxy, if_neg hyx] at h₁
      rw [if_neg hyx, if_neg hxy] at h₂
      have he : x = y := charToNat_inj h
      rw [he, charListLe_antisymm xs ys h₁ h₂]
    · rw [if_neg (by omega : ¬ x.toNat < y.toNat), if_pos h] at h₁
      simp at h₁

theorem strLe_antisymm {a b : String} (h₁ : strLe a b) (h₂ : strLe b a) : a = b := by
  cases a; cases b
  simp only [strLe] at h₁ h₂
  congr 1
  exact charListLe_antisymm _ _ h₁ h₂

/-- Modelled from the spec: the Less order behind sort.Sort for the
api.Neighbours collection is not among the given sources; the spec
orders neighbours by their identifier. -/
def neighbourLe (a b : Neighbour) : Prop := strLe a.Id b.Id

instance : DecidableRel neighbourLe :=
  fun a b => inferInstanceAs (Decidable (charListLe a.Id.data b.Id.data = true))

instance : IsTotal Neighbour neighbourLe :=
  ⟨fun a b => charListLe_total a.Id.data b.Id.data⟩

instance : IsTrans Neighbour neighbourLe :=
  ⟨fun a b c h₁ h₂ => charListLe_trans a.Id.data b.Id.data c.Id.data h₁ h₂⟩

/-- sort.Sort on the neighbours collection. -/
def sortNeighbours (ns : List Neighbour) : List Neighbour :=
  ns.insertionSort neighbourLe

/-- Modelled from the spec: the Less order behind sort.Sort for the
api.Routes collection is not among the given sources; the spec orders
routes by network and then next hop (gateway). -/
def routeLe (a b : Route) : Prop :=
  (if a.Network = b.Network then charListLe a.Gateway.data b.Gateway.data
   else charListLe a.Network.data b.Network.data) = true

instance : DecidableRel routeLe :=
  fun a b => inferInstanceAs (Decidable
    ((if a.Network = b.Network then charListLe a.Gateway.data b.Gateway.data
      else charListLe a.Network.data b.Network.data) = true))

instance : IsTotal Route routeLe := by
  constructor
  intro a b
  unfold routeLe
  by_cases h : a.Network = b.Network
  · rw [if_pos h, if_pos h.symm]
    exact charListLe_total a.Gateway.data b.Gateway.data
  · rw [if_neg h, if_neg (fun e => h e.symm)]
    exact charListLe_total a.Network.data b.Network.data

instance : IsTrans Route routeLe := by
  constructor
  intro a b c h₁ h₂
  unfold routeLe at h₁ h₂ ⊢
  by_cases hab : a.Network = b.Network <;> by_cases hbc : b.Network = c.Network
  · have hac : a.Network = c.Network := hab.trans hbc
    rw [if_pos hab] at h₁
    rw [if_pos hbc] at h₂
    rw [if_pos hac]
    exact charListLe_trans _ _ _ h₁ h₂
  · have hac : ¬ a.Network = c.Network := fun e => hbc (hab ▸ e)
    rw [if_neg hbc] at h₂
    rw [if_neg hac]
    rw [hab]
    exact h₂
  · have hac : ¬ a.Network = c.Network := fun e => hab (e.trans hbc.symm)
    rw [if_neg hab] at h₁
    rw [if_neg hac]
    rw [← hbc]
    exact h₁
  · rw [if_neg hab] at h₁
    rw [if_neg hbc] at h₂
    by_cases hac : a.Network = c.Network
    · exfalso
      apply hab
      have h₂x : charListLe b.Network.data a.Network.data = true := by
        rw [hac]
        exact h₂
      exact strLe_antisymm h₁ h₂x
    · rw [if_neg hac]
      exact charListLe_trans _ _ _ h₁ h₂

/-- sort.Sort on the routes collection. -/
def sortRoutes (rs : List Route) : List Route :=
  rs.insertionSort routeLe

/-- Loop body of parseNeighbours for one protocols entry, with the
assertions in Go evaluation order: the protocol map, its routes map,
the tolerant uptime and last_error extractions, then the struct literal
fields (address, ASN, state, description, the four counters). -/
def parseNeighbour (now : Int) (cfg : Config) (pid : String) (proto : GoValue) :
    Except String Neighbour :=
  (asMap proto).bind (fun protocol =>
  (asMap (mapGet protocol ("routes"))).bind (fun routes =>
  (asString (mapGet protocol ("neighbor_address"))).bind (fun address =>
  (asNum (mapGet protocol ("neighbor_as"))).bind (fun asn =>
  (asString (mapGet protocol ("state"))).bind (fun state =>
  (asString (mapGet protocol ("description"))).bind (fun descr =>
  (asNum (mapGet routes ("imported"))).bind (fun imported =>
  (asNum (mapGet routes ("exported"))).bind (fun exported =>
  (asNum (mapGet routes ("filtered"))).bind (fun filtered =>
  (asNum (mapGet routes ("preferred"))).bind (fun preferred =>
  (.ok { Id := pid,
         Address := address,
         Asn := asn,
         State := state,
         Description := descr,
         RoutesReceived := imported,
         RoutesExported := exported,
         RoutesFiltered := filtered,
         RoutesPreferred := preferred,
         Uptime := parseRelativeServerTime now (mapGet protocol ("state_changed")) cfg,
         LastError := mustString (mapGet protocol ("last_error")) (""),
         Details := protocol })))))))))))

/-- The iteration of parseNeighbours over the protocols entries, one
Neighbour appended per entry, the first failure aborting the whole
parse. -/
def parseNeighboursList (now : Int) (cfg : Config) : GoMap → Except String (List Neighbour)
  | [] => .ok []
  | p :: rest =>
    (parseNeighbour now cfg p.1 p.2).bind (fun n =>
    (parseNeighboursList now cfg rest).bind (fun ns => .ok (n :: ns)))

/-- parseNeighbours: assert the protocols map, build one Neighbour per
entry, sort the result. -/
def parseNeighbours (now : Int) (bird : GoMap) (cfg : Config) :
    Except String (List Neighbour) :=
  (asMap (mapGet bird ("protocols"))).bind (fun protocols =>
  (parseNeighboursList now cfg protocols).bind (fun ns =>
  (.ok (sortNeighbours ns))))

/-- Loop body of parseRoutes for one routes element, with the
assertions in Go evaluation order: the route map, the tolerant age, the
type string list, the BGP block, then the struct literal assertions
(network twice for Id and Network, from_protocol, interface, gateway,
metric). -/
def parseRoute (now : Int) (cfg : Config) (data : GoValue) : Except String Route :=
  (asMap data).bind (fun rdata =>
  (mustStringList (mapGet rdata ("type"))).bind (fun rtype =>
  (parseRouteBgpInfo (mapGet rdata ("bgp"))).bind (fun bgpInfo =>
  (asString (mapGet rdata ("network"))).bind (fun network =>
  (asString (mapGet rdata ("from_protocol"))).bind (fun fromProto =>
  (asString (mapGet rdata ("interface"))).bind (fun iface =>
  (asString (mapGet rdata ("gateway"))).bind (fun gateway =>
  (asNum (mapGet rdata ("metric"))).bind (fun metric =>
  (.ok { Id := network,
         NeighbourId := fromProto,
         Network := network,
         Interface := iface,
         Gateway := gateway,
         Metric := metric,
         Age := parseRelativeServerTime now (mapGet rdata ("age")) cfg,
         RType := rtype,
         Bgp := bgpInfo,
         Details := rdata })))))))))

/-- The iteration of parseRoutes over the routes array. -/
def parseRoutesList (now : Int) (cfg : Config) : List GoValue → Except String (List Route)
  | [] => .ok []
  | d :: rest =>
    (parseRoute now cfg d).bind (fun r =>
    (parseRoutesList now cfg rest).bind (fun rs => .ok (r :: rs)))

/-- parseRoutes: assert the routes array, build one Route per element,
sort the result. -/
def parseRoutes (now : Int) (bird : GoMap) (cfg : Config) :
    Except String (List Route) :=
  (asList (mapGet bird ("routes"))).bind (fun birdRoutes =>
  (parseRoutesList now cfg birdRoutes).bind (fun rs =>
  (.ok (sortRoutes rs))))

/-- Refresh state constants, in iota order. -/
def STATE_INIT : Nat := 0

/-- Refresh state READY. -/
def STATE_READY : Nat := 1

/-- Refresh state UPDATING. -/
def STATE_UPDATING : Nat := 2

/-- Refresh state ERROR. -/
def STATE_ERROR : Nat := 3

/-- stateToString. -/
def stateToString (state : Nat) : String :=
  if state = STATE_INIT then "INIT"
  else if state = STATE_READY then "READY"
  else if state = STATE_UPDATING then "UPDATING"
  else if state = STATE_ERROR then "ERROR"
  else "INVALID"

/-- Modelled from the spec: the api.RoutesResponse bundle (imported and
filtered route lists) is referenced by the store but its declaration is
not among the given sources. -/
structure RoutesResponse where
  Imported : List Route
  Filtered : List Route

/-- Per-backend refresh bookkeeping. -/
structure StoreStatus where
  LastRefresh : Int
  LastError : Option String
  State : Nat

/-- The slice of per-source configuration the store reads (the display
name used by Stats). -/
structure SourceConfig where
  Name : String

/-- Total imported and filtered counters, Go field order Filtered then
Imported. -/
structure RoutesStats where
  Filtered : Nat
  Imported : Nat

/-- Per-backend summary inside StoreStats. -/
structure RouteServerStats where
  Name : String
  Routes : RoutesStats
  State : String
  UpdatedAt : Int

/-- Aggregate statistics over the whole store. -/
structure StoreStats where
  TotalRoutes : RoutesStats
  RouteServers : List RouteServerStats

/-- Modelled from the spec: an api.LookupRoute is a cached route tagged
with the originating backend identity; its declaration is not among the
given sources. -/
structure LookupRoute where
  Routeserver : String
  Route : Route

/-- The routes store.  A sources.Source instance is an opaque comparable
handle, modelled as a Nat; the three Go maps keyed by it become
functions, together with the list of configured handles that drives map
iteration. -/
structure RoutesStore where
  sources : List Nat
  routesMap : Nat → RoutesResponse
  statusMap : Nat → StoreStatus
  configMap : Nat → SourceConfig

/-- NewRoutesStore: one entry per configured source, empty cached
response, status INIT. -/
def NewRoutesStore (cfgs : List (Nat × SourceConfig)) : RoutesStore :=
  { sources := cfgs.map Prod.fst,
    routesMap := fun _ => { Imported := [], Filtered := [] },
    statusMap := fun _ => { LastRefresh := 0, LastError := none, State := STATE_INIT },
    configMap := fun src =>
      match cfgs.find? (fun p => p.1 == src) with
      | some p => p.2
      | none => { Name := "" } }

/-- Point update of a map-as-function. -/
def updAt (f : Nat → β) (k : Nat) (v : β) : Nat → β :=
  fun x => if x = k then v else f x

/-- The body of the update loop for one source: skip when a refresh is
already in flight, otherwise write UPDATING (with zero-valued refresh
time and error), fetch, and write ERROR (keeping the cached response)
or READY (replacing it).  Returns the new status, the new cached
response, and the sequence of states written to the status map. -/
def refreshStep (status : StoreStatus) (cached : RoutesResponse)
    (fetch : Except String RoutesResponse) (now : Int) :
    StoreStatus × RoutesResponse × List Nat :=
  if status.State = STATE_UPDATING then (status, cached, [])
  else
    match fetch with
    | .error e =>
      ({ LastRefresh := now, LastError := some e, State := STATE_ERROR },
       cached, [STATE_UPDATING, STATE_ERROR])
    | .ok routes =>
      ({ LastRefresh := now, LastError := none, State := STATE_READY },
       routes, [STATE_UPDATING, STATE_READY])

/-- The update loop over the configured sources. -/
def updateLoop (fetch : Nat → Except String RoutesResponse) (now : Int) :
    List Nat → RoutesStore → RoutesStore
  | [], st => st
  | src :: rest, st =>
    updateLoop fetch now rest
      { st with
        statusMap := updAt st.statusMap src
          (refreshStep (st.statusMap src) (st.routesMap src) (fetch src) now).1,
        routesMap := updAt st.routesMap src
          (refreshStep (st.statusMap src) (st.routesMap src) (fetch src) now).2.1 }

/-- RoutesStore.update: one refresh pass over every configured source.
The AllRoutes call of each source is the fetch argument; now is the
wall clock read by time.Now inside the loop. -/
def RoutesStore.update (store : RoutesStore)
    (fetch : Nat → Except String RoutesResponse) (now : Int) : RoutesStore :=
  updateLoop fetch now store.sources store

/-- The per-backend summary Stats builds for one source. -/
def serverStatsOf (store : RoutesStore) (src : Nat) : RouteServerStats :=
  { Name := (store.configMap src).Name,
    Routes := { Filtered := (store.routesMap src).Filtered.length,
                Imported := (store.routesMap src).Imported.length },
    State := stateToString ((store.statusMap src).State),
    UpdatedAt := (store.statusMap src).LastRefresh }

/-- RoutesStore.Stats: totals plus one summary per source, a pure read
of the current maps. -/
def RoutesStore.Stats (store : RoutesStore) : StoreStats :=
  { TotalRoutes :=
      { Imported := (store.sources.map
          (fun src => (store.routesMap src).Imported.length)).sum,
        Filtered := (store.sources.map
          (fun src => (store.routesMap src).Filtered.length)).sum },
    RouteServers := store.sources.map (serverStatsOf store) }

/-- RoutesStore.Lookup as written in the source: an unimplemented stub
that builds the empty result list and returns it for every query. -/
def RoutesStore.Lookup (_store : RoutesStore) (_pfx : String) : List LookupRoute :=
  []

/-- A sequence of refresh attempts against one source, threading status
and cached response and concatenating the recorded state writes.  Each
attempt carries the fetch outcome and the wall clock at its time. -/
def runAttempts (status : StoreStatus) (cached : RoutesResponse) :
    List (Except String RoutesResponse × Int) →
    StoreStatus × RoutesResponse × List Nat
  | [] => (status, cached, [])
  | a :: rest =>
    ((runAttempts (refreshStep status cached a.1 a.2).1
        (refreshStep status cached a.1 a.2).2.1 rest).1,
     (runAttempts (refreshStep status cached a.1 a.2).1
        (refreshStep status cached a.1 a.2).2.1 rest).2.1,
     (refreshStep status cached a.1 a.2).2.2 ++
       (runAttempts (refreshStep status cached a.1 a.2).1
          (refreshStep status cached a.1 a.2).2.1 rest).2.2)

/-- The terminal state an unskipped refresh attempt records. -/
def attemptResult (fetch : Except String RoutesResponse) : Nat :=
  match fetch with
  | .ok _ => STATE_READY
  | .error _ => STATE_ERROR

/-- validateQueryString: the values of one query key must exist, be a
single value, and be nonempty. -/
def validateQueryString (query : List (String × List String)) (key : String) :
    Except String String :=
  match query.find? (fun p => p.1 == key) with
  | none => .error ("Query param is missing.")
  | some p =>
    if p.2.length ≠ 1 then .error ("Query param is ambigous.")
    else
      match p.2 with
      | [v] => if v = "" then .error ("Query param may not be empty.") else .ok v
      | _ => .error ("Query param is ambigous.")

/-- validatePrefixQuery: Go len() counts UTF-8 bytes. -/
def validatePrefixQuery (value : String) : Except String String :=
  if goStrLen value < 2 then .error ("Query too short") else .ok value

/-- The response of the global lookup endpoint; the wall-clock query
duration bookkeeping is carried as an opaque integer. -/
structure LookupResponseGlobal where
  Routes : List LookupRoute
  TimeMs : Int

/-- apiLookupPrefixGlobal: validate the q parameter, then query the
store.  The store lookup is a parameter so that the theorems can
quantify over the cache contents behind AliceRoutesStore.Lookup. -/
def apiLookupPrefixGlobal (lk : String → List LookupRoute) (elapsed : Int)
    (query : List (String × List String)) : Except String LookupResponseGlobal :=
  (validateQueryString query ("q")).bind (fun v =>
  (validatePrefixQuery v).bind (fun v2 =>
  (.ok { Routes := lk v2, TimeMs := elapsed })))

/-- A fixed BGP block used by concrete store contents in the theorems
below. -/
def sampleBgp : BgpInfo :=
  { Origin := "igp", AsPath := [65001], NextHop := "192.0.2.1",
    LocalPref := 100, Med := 0, Communities := [], LargeCommunities := [] }

/-- A cached route with a given network and gateway. -/
def mkSampleRoute (net gw : String) : Route :=
  { Id := net, NeighbourId := "p1", Network := net, Interface := "eth0",
    Gateway := gw, Metric := 100, Age := 0, RType := ["BGP"],
    Bgp := sampleBgp, Details := [] }

/-- An empty cached response. -/
def sampleResp : RoutesResponse := { Imported := [], Filtered := [] }

/-- A nonempty cached response. -/
def sampleResp2 : RoutesResponse :=
  { Imported := [mkSampleRoute ("10.0.0.0/24") ("192.0.2.1")], Filtered := [] }

/-- A well-formed protocols entry value with a given address. -/
def sampleProto (addr : String) : GoValue :=
  GoValue.vmap
    [("routes", GoValue.vmap
        [("imported", GoValue.vnum 10), ("exported", GoValue.vnum 5),
         ("filtered", GoValue.vnum 2), ("preferred", GoValue.vnum 9)]),
     ("neighbor_address", GoValue.vstr addr), ("neighbor_as", GoValue.vnum 65001),
     ("state", GoValue.vstr "up"), ("description", GoValue.vstr "peer")]

/-- A raw payload whose only protocols map is the given one. -/
def mkBird (ps : GoMap) : GoMap := [("protocols", GoValue.vmap ps)]

/-- The store of the cross-backend scenario: two backends, both READY,
the first caching a route for 10.0.0.0/24, the second caching only an
unrelated network. -/
def c1Store : RoutesStore :=
  { sources := [0, 1],
    routesMap := fun s =>
      if s = 0 then { Imported := [mkSampleRoute ("10.0.0.0/24") ("192.0.2.1")], Filtered := [] }
      else { Imported := [mkSampleRoute ("192.0.2.0/24") ("192.0.2.9")], Filtered := [] },
    statusMap := fun _ => { LastRefresh := 50, LastError := none, State := STATE_READY },
    configMap := fun s => if s = 0 then { Name := "rs1" } else { Name := "rs2" } }

/-- The predicate of claim C2: the protocols entry value is missing or
mistypes one of the mandatory fields (the entry or its routes block is
not a map, the neighbour address or state is not a string, the ASN or
one of the four per-session route counters is not a number). -/
def mandatoryFieldBad (proto : GoValue) : Bool :=
  isErrB ((asMap proto).bind (fun protocol =>
    asMap (mapGet protocol ("routes")))) ||
  isErrB ((asMap proto).bind (fun protocol =>
    asString (mapGet protocol ("neighbor_address")))) ||
  isErrB ((asMap proto).bind (fun protocol =>
    asNum (mapGet protocol ("neighbor_as")))) ||
  isErrB ((asMap proto).bind (fun protocol =>
    asString (mapGet protocol ("state")))) ||
  isErrB ((asMap proto).bind (fun protocol =>
    (asMap (mapGet protocol ("routes"))).bind (fun routes =>
      asNum (mapGet routes ("imported"))))) ||
  isErrB ((asMap proto).bind (fun protocol =>
    (asMap (mapGet protocol ("routes"))).bind (fun routes =>
      asNum (mapGet routes ("exported"))))) ||
  isErrB ((asMap proto).bind (fun protocol =>
    (asMap (mapGet protocol ("routes"))).bind (fun routes =>
      asNum (mapGet routes ("filtered"))))) ||
  isErrB ((asMap proto).bind (fun protocol =>
    (asMap (mapGet protocol ("routes"))).bind (fun routes =>
      asNum (mapGet routes ("preferred")))))

/-- A protocols entry lacking the mandatory neighbour address. -/
def c2proto : GoValue :=
  GoValue.vmap
    [("routes", GoValue.vmap
        [("imported", GoValue.vnum 1), ("exported", GoValue.vnum 1),
         ("filtered", GoValue.vnum 0), ("preferred", GoValue.vnum 1)]),
     ("neighbor_as", GoValue.vnum 65001),
     ("state", GoValue.vstr "up"), ("description", GoValue.vstr "d")]

/-- A payload holding only the defective protocols entry. -/
def c2bird : GoMap := [("protocols", GoValue.vmap [("p1", c2proto)])]

/-- A two-backend store in READY state with cached content, for the
stale-serve theorem. -/
def c3store : RoutesStore :=
  { sources := [0, 1],
    routesMap := fun s =>
      if s = 0 then
        { Imported := [mkSampleRoute ("10.0.0.0/24") ("192.0.2.1"),
                       mkSampleRoute ("10.1.0.0/16") ("192.0.2.2")],
          Filtered := [mkSampleRoute ("198.51.100.0/24") ("192.0.2.3")] }
      else { Imported := [], Filtered := [] },
    statusMap := fun _ => { LastRefresh := 50, LastError := none, State := STATE_READY },
    configMap := fun s => if s = 0 then { Name := "rs1" } else { Name := "rs2" } }

/-- A fetch in which every backend fails. -/
def c3fetch : Nat → Except String RoutesResponse :=
  fun _ => .error ("connection refused")

/-- A BGP block with a list-shaped as_path, a string local_pref that is
not a number, and origin and med absent. -/
def c5m : GoMap := [("as_path", GoValue.vlist []), ("local_pref", GoValue.vstr ("xyz"))]

/-- Two protocols entries listed in one order. -/
def c6ps1 : GoMap := [("p2", sampleProto ("b")), ("p1", sampleProto ("a"))]

/-- The same two protocols entries listed in the other order. -/
def c6ps2 : GoMap := [("p1", sampleProto ("a")), ("p2", sampleProto ("b"))]

/-- The parse result of the first enumeration order. -/
def c6res : List Neighbour :=
  (parseNeighbours 100 (mkBird c6ps1) { Timezone := "UTC" }).toOption.getD []

/-- One raw route map value for the routes array. -/
def c6routeVal (net gw : String) : GoValue :=
  GoValue.vmap
    [("network", GoValue.vstr net), ("from_protocol", GoValue.vstr ("p1")),
     ("interface", GoValue.vstr ("eth0")), ("gateway", GoValue.vstr gw),
     ("metric", GoValue.vnum 100), ("type", GoValue.vlist [GoValue.vstr ("BGP")]),
     ("bgp", GoValue.vmap
        [("as_path", GoValue.vlist [GoValue.vstr ("65001")]),
         ("local_pref", GoValue.vstr ("100"))])]

/-- A raw payload with two routes listed out of order. -/
def c6birdRoutes : GoMap :=
  [("routes", GoValue.vlist
      [c6routeVal ("192.0.2.0/24") ("b"), c6routeVal ("10.0.0.0/24") ("a")])]

/-- A store lookup used by the query validation theorems: the concrete
value is irrelevant because the stub returns nothing anyway. -/
def c10lk : String → List LookupRoute := fun _ => []

theorem isErrB_false_iff (x : Except String α) : isErrB x = false ↔ ∃ a, x = .ok a := by
  cases x <;> simp [isErrB]

theorem isErrB_true_iff (x : Except String α) : isErrB x = true ↔ ∃ e, x = .error e := by
  cases x <;> simp [isErrB]

theorem mustString_nonstr (v : GoValue) (fb : String) (h : ∀ s, v ≠ GoValue.vstr s) :
    mustString v fb = fb := by
  cases v <;> first
    | rfl
    | exact absurd rfl (h _)

/-- C1 counterexample: in the concrete two-backend scenario, exactly one
backend caches a route whose network is 10.0.0.0/24 and both backends
are READY, yet Lookup returns zero entries instead of the one entry the
claim expects. -/
theorem c1_counterexample :
    ((c1Store.routesMap 0).Imported.map (fun r => r.Network) = ["10.0.0.0/24"]) ∧
    ((c1Store.routesMap 1).Imported.map (fun r => r.Network) = ["192.0.2.0/24"]) ∧
    ((c1Store.routesMap 1).Filtered = []) ∧
    ((c1Store.statusMap 0).State = STATE_READY) ∧
    ((c1Store.statusMap 1).State = STATE_READY) ∧
    ((c1Store.Lookup ("10.0.0.0/24")).length = 0) :=
  ⟨rfl, rfl, rfl, rfl, rfl, rfl⟩

/-- C1 amended: RoutesStore.Lookup is an unimplemented stub that returns
the empty list for every store and every query, so a cross-backend
search never yields any entry. -/
theorem c1_lookup_stub (store : RoutesStore) (pfx : String) :
    store.Lookup pfx = [] := rfl

/-- C9: a time-valued field that is not a string parses to the zero time
with no error, and the relative time computed from it is the duration
from the zero time to now, which is nonzero whenever now is not the
zero instant. -/
theorem c9_nonstring_time (v : GoValue) (layout tz : String) (cfg : Config) (now : Int)
    (h : ∀ s, v ≠ GoValue.vstr s) :
    parseServerTime v layout tz = .ok 0 ∧
    parseRelativeServerTime now v cfg = now - 0 ∧
    (now ≠ 0 → parseRelativeServerTime now v cfg ≠ 0) := by
  have hz : ∀ (ly tzx : String), parseServerTime v ly tzx = .ok 0 := by
    intro ly tzx
    cases v <;> first
      | rfl
      | exact absurd rfl (h _)
  have hr : parseRelativeServerTime now v cfg = now - 0 := by
    unfold parseRelativeServerTime
    rw [hz]
  refine ⟨hz layout tz, hr, ?_⟩
  intro hnz
  rw [hr]
  omega

theorem c9_witness :
    parseServerTime (GoValue.vnum 7) SERVER_TIME ("UTC") = .ok 0 ∧
    parseRelativeServerTime 100 (GoValue.vnum 7) { Timezone := "UTC" } = 100 - 0 ∧
    ((100 : Int) ≠ 0 →
      parseRelativeServerTime 100 (GoValue.vnum 7) { Timezone := "UTC" } ≠ 0) :=
  c9_nonstring_time (GoValue.vnum 7) SERVER_TIME ("UTC") { Timezone := "UTC" } 100
    (fun _ hh => GoValue.noConfusion hh)

theorem filterMap_toStr_map_vstr (l : List String) :
    (l.map GoValue.vstr).filterMap toStr = l := by
  induction l with
  | nil => rfl
  | cons s rest ih => simp [toStr, ih]

/-- C7: parseIntList converts the string list element-wise with Atoi, a
string that is not a number contributing 0, and a list-shaped as_path
never fails regardless of its elements. -/
theorem c7_as_path_intlist :
    (∀ l : List String,
      parseIntList (GoValue.vlist (l.map GoValue.vstr)) = .ok (l.map atoiOrZero)) ∧
    (∀ s, parseGoInt s = none → atoiOrZero s = 0) ∧
    (∀ xs : List GoValue, isErrB (parseIntList (GoValue.vlist xs)) = false) := by
  refine ⟨?_, ?_, ?_⟩
  · intro l
    unfold parseIntList mustStringList
    rw [show asList (GoValue.vlist (l.map GoValue.vstr)) = .ok (l.map GoValue.vstr) from rfl]
    simp only [exceptBind_ok]
    rw [filterMap_toStr_map_vstr]
  · intro s h
    simp [atoiOrZero, h]
  · intro xs
    simp [parseIntList, mustStringList, asList, isErrB]

theorem c7_witness :
    parseGoInt ("4foo") = none ∧ atoiOrZero ("4foo") = 0 :=
  ⟨by decide, c7_as_path_intlist.2.1 ("4foo") (by decide)⟩

theorem parseCommunity_nums (c : List Int) :
    parseCommunity (c.map GoValue.vnum) = .ok c := by
  induction c with
  | nil => rfl
  | cons n rest ih => simp [parseCommunity, asNum, ih]

/-- C8 counterexample: a list whose element is not itself a list is
wrongly shaped data, yet parseBgpCommunities fails on it with an error
instead of returning the empty sequence the claim expects. -/
theorem c8_counterexample :
    parseBgpCommunities (GoValue.vlist [GoValue.vstr ("x")]) =
      .error ("interface conversion: not a list") := rfl

/-- C8 amended: data that is absent or not a list at the top level
yields the empty community set without an error, and a list of integer
lists decodes to exactly those ordered integer sequences; a list with a
member of any other shape is instead a failure. -/
theorem c8_communities (v : GoValue) (ls : List (List Int))
    (hv : ∀ l, v ≠ GoValue.vlist l) :
    parseBgpCommunities v = .ok [] ∧
    parseBgpCommunities
      (GoValue.vlist (ls.map (fun c => GoValue.vlist (c.map GoValue.vnum)))) = .ok ls := by
  constructor
  · cases v <;> first
      | rfl
      | exact absurd rfl (hv _)
  · induction ls with
    | nil => rfl
    | cons c rest ih =>
      simp [parseBgpCommunities, parseCommunitiesList, asList, parseCommunity_nums]
      simp [parseBgpCommunities] at ih
      simp [ih]

theorem c8_witness :
    parseBgpCommunities GoValue.vnull = .ok [] ∧
    parseBgpCommunities
      (GoValue.vlist [GoValue.vlist [GoValue.vnum 65001, GoValue.vnum 100]]) =
      .ok [[65001, 100]] := by
  have h := c8_communities GoValue.vnull [[65001, 100]]
    (fun _ hh => GoValue.noConfusion hh)
  exact ⟨h.1, by simpa using h.2⟩

/-- C5 counterexample: the empty BGP attribute block has origin and med
absent, so the claim expects a successful parse with the defaults, but
parseRouteBgpInfo fails on it (the as_path assertion, and likewise the
local_pref string assertion, aborts the parse), returning an error
instead of any BgpInfo value. -/
theorem c5_counterexample :
    mapGet [] ("origin") = GoValue.vnull ∧
    mapGet [] ("med") = GoValue.vnull ∧
    parseRouteBgpInfo (GoValue.vmap []) =
      .error ("interface conversion: not a list") :=
  ⟨rfl, rfl, rfl⟩

/-- C5 amended: for a BGP attribute block whose as_path, communities and
large_communities decode and whose local_pref is a string,
parseRouteBgpInfo succeeds, with origin defaulting to unknown when the
origin field is absent or not a string, med defaulting to 0 when the
med field is absent or not a string, and local_pref defaulting to 0
when its string is not a number. -/
theorem c5_bgp_defaults (m : GoMap)
    (hap : isErrB (parseIntList (mapGet m ("as_path"))) = false)
    (hcom : isErrB (parseBgpCommunities (mapGet m ("communities"))) = false)
    (hlarge : isErrB (parseBgpCommunities (mapGet m ("large_communities"))) = false)
    (hlp : ∃ s, mapGet m ("local_pref") = GoValue.vstr s) :
    ∃ b, parseRouteBgpInfo (GoValue.vmap m) = .ok b ∧
      ((∀ s, mapGet m ("origin") ≠ GoValue.vstr s) → b.Origin = "unknown") ∧
      ((∀ s, mapGet m ("med") ≠ GoValue.vstr s) → b.Med = 0) ∧
      (∀ s, mapGet m ("local_pref") = GoValue.vstr s → parseGoInt s = none →
        b.LocalPref = 0) := by
  obtain ⟨ap, hap⟩ := (isErrB_false_iff _).mp hap
  obtain ⟨com, hcom⟩ := (isErrB_false_iff _).mp hcom
  obtain ⟨larg, hlarge⟩ := (isErrB_false_iff _).mp hlarge
  obtain ⟨lp, hlp⟩ := hlp
  refine ⟨{ Origin := mustString (mapGet m ("origin")) ("unknown"),
            AsPath := ap,
            NextHop := mustString (mapGet m ("next_hop")) ("unknown"),
            LocalPref := atoiOrZero lp,
            Med := (match mapGet m ("med") with
                    | .vstr ms => atoiOrZero ms
                    | _ => (0 : Int)),
            Communities := com,
            LargeCommunities := larg }, ?_, ?_, ?_, ?_⟩
  · unfold parseRouteBgpInfo
    rw [show asMap (GoValue.vmap m) = .ok m from rfl]
    simp only [exceptBind_ok]
    rw [hap, hcom, hlarge, hlp]
    rfl
  · intro hor
    exact mustString_nonstr _ _ hor
  · intro hmed
    cases hv : mapGet m ("med") <;> first
      | rfl
      | exact absurd hv (hmed _)
  · intro s hs hnone
    show atoiOrZero lp = 0
    rw [hlp] at hs
    cases hs
    simp [atoiOrZero, hnone]

theorem c5_witness :
    ∃ b, parseRouteBgpInfo (GoValue.vmap c5m) = .ok b ∧
      b.Origin = "unknown" ∧ b.Med = 0 ∧ b.LocalPref = 0 := by
  obtain ⟨b, hb, ho, hm, hl⟩ := c5_bgp_defaults c5m (by decide) (by decide) (by decide)
    ⟨"xyz", rfl⟩
  refine ⟨b, hb, ?_, ?_, ?_⟩
  · refine ho ?_
    intro s hh
    rw [show mapGet c5m ("origin") = GoValue.vnull from rfl] at hh
    exact GoValue.noConfusion hh
  · refine hm ?_
    intro s hh
    rw [show mapGet c5m ("med") = GoValue.vnull from rfl] at hh
    exact GoValue.noConfusion hh
  · exact hl ("xyz") rfl (by decide)

theorem goStrLen_pos_ne_empty (v : String) (h : 2 ≤ goStrLen v) : v ≠ "" := by
  intro he
  subst he
  simp [goStrLen] at h

/-- C10 counterexample: a single q value of one character whose UTF-8
encoding is two bytes long passes validation, and the lookup is
invoked, although the value is shorter than 2 characters. -/
theorem c10_counterexample :
    ("é").length = 1 ∧ goStrLen ("é") = 2 ∧
    apiLookupPrefixGlobal c10lk 0 [("q", ["é"])] =
      .ok { Routes := c10lk ("é"), TimeMs := 0 } :=
  ⟨by decide, by decide, rfl⟩

/-- C10 amended: a request whose q parameter is missing, supplied more
than once, empty, or shorter than 2 UTF-8 bytes is rejected with an
error for every possible store lookup (so the lookup is never
consulted); a single q value of at least 2 bytes is returned unchanged
by validation and the handler answers with the lookup result. -/
theorem c10_query_validation (query : List (String × List String))
    (lk : String → List LookupRoute) (elapsed : Int) :
    (query.find? (fun p => p.1 == "q") = none →
      ∃ e, apiLookupPrefixGlobal lk elapsed query = .error e) ∧
    (∀ p, query.find? (fun p2 => p2.1 == "q") = some p → p.2.length ≠ 1 →
      ∃ e, apiLookupPrefixGlobal lk elapsed query = .error e) ∧
    (∀ p v, query.find? (fun p2 => p2.1 == "q") = some p → p.2 = [v] →
      goStrLen v < 2 →
      ∃ e, apiLookupPrefixGlobal lk elapsed query = .error e) ∧
    (∀ p v, query.find? (fun p2 => p2.1 == "q") = some p → p.2 = [v] →
      2 ≤ goStrLen v →
      validateQueryString query ("q") = .ok v ∧
      apiLookupPrefixGlobal lk elapsed query =
        .ok { Routes := lk v, TimeMs := elapsed }) := by
  refine ⟨?_, ?_, ?_, ?_⟩
  · intro hf
    refine ⟨"Query param is missing.", ?_⟩
    simp [apiLookupPrefixGlobal, validateQueryString, hf]
  · intro p hf hlen
    refine ⟨"Query param is ambigous.", ?_⟩
    simp [apiLookupPrefixGlobal, validateQueryString, hf, hlen]
  · intro p v hf hv hshort
    by_cases he : v = ""
    · refine ⟨"Query param may not be empty.", ?_⟩
      subst he
      simp [apiLookupPrefixGlobal, validateQueryString, hf, hv]
    · refine ⟨"Query too short", ?_⟩
      simp [apiLookupPrefixGlobal, validateQueryString, validatePrefixQuery,
        hf, hv, he, hshort]
  · intro p v hf hv hlong
    have he : v ≠ "" := goStrLen_pos_ne_empty v hlong
    have hs2 : ¬ goStrLen v < 2 := by omega
    constructor
    · simp [validateQueryString, hf, hv, he]
    · simp [apiLookupPrefixGlobal, validateQueryString, validatePrefixQuery,
        hf, hv, he, hs2]

theorem c10_witness :
    (∃ e, apiLookupPrefixGlobal c10lk 0 [] = .error e) ∧
    (∃ e, apiLookupPrefixGlobal c10lk 0
      [("q", ["10.0.0.0/24", "192.0.2.0/24"])] = .error e) ∧
    (∃ e, apiLookupPrefixGlobal c10lk 0 [("q", ["x"])] = .error e) ∧
    (validateQueryString [("q", ["10.0.0.0/24"])] ("q") = .ok ("10.0.0.0/24") ∧
     apiLookupPrefixGlobal c10lk 0 [("q", ["10.0.0.0/24"])] =
       .ok { Routes := c10lk ("10.0.0.0/24"), TimeMs := 0 }) := by
  refine ⟨?_, ?_, ?_, ?_⟩
  · exact (c10_query_validation [] c10lk 0).1 rfl
  · exact (c10_query_validation [("q", ["10.0.0.0/24", "192.0.2.0/24"])] c10lk 0).2.1
      _ rfl (by decide)
  · exact (c10_query_validation [("q", ["x"])] c10lk 0).2.2.1 _ ("x") rfl rfl (by decide)
  · exact (c10_query_validation [("q", ["10.0.0.0/24"])] c10lk 0).2.2.2
      _ ("10.0.0.0/24") rfl rfl (by decide)

theorem parseNeighbour_err_of_bad (now : Int) (cfg : Config) (pid : String)
    (proto : GoValue) (hb : mandatoryFieldBad proto = true) :
    isErrB (parseNeighbour now cfg pid proto) = true := by
  unfold mandatoryFieldBad at hb
  unfold parseNeighbour
  cases h1 : asMap proto with
  | error e => rfl
  | ok protocol =>
  rw [h1] at hb
  simp only [exceptBind_ok] at hb
  simp only [exceptBind_ok]
  cases h2 : asMap (mapGet protocol ("routes")) with
  | error e => rfl
  | ok routes =>
  rw [h2] at hb
  simp only [exceptBind_ok, isErrB_ok, Bool.false_or] at hb
  cases h3 : asString (mapGet protocol ("neighbor_address")) with
  | error e => rfl
  | ok address =>
  rw [h3] at hb
  simp only [isErrB_ok, Bool.false_or] at hb
  simp only [exceptBind_ok]
  cases h4 : asNum (mapGet protocol ("neighbor_as")) with
  | error e => rfl
  | ok asn =>
  rw [h4] at hb
  simp only [isErrB_ok, Bool.false_or] at hb
  simp only [exceptBind_ok]
  cases h5 : asString (mapGet protocol ("state")) with
  | error e => rfl
  | ok state =>
  rw [h5] at hb
  simp only [isErrB_ok, Bool.false_or] at hb
  simp only [exceptBind_ok]
  cases h6 : asString (mapGet protocol ("description")) with
  | error e => rfl
  | ok descr =>
  simp only [exceptBind_ok]
  cases h7 : asNum (mapGet routes ("imported")) with
  | error e => rfl
  | ok imported =>
  rw [h7] at hb
  simp only [isErrB_ok, Bool.false_or] at hb
  simp only [exceptBind_ok]
  cases h8 : asNum (mapGet routes ("exported")) with
  | error e => rfl
  | ok exported =>
  rw [h8] at hb
  simp only [isErrB_ok, Bool.false_or] at hb
  simp only [exceptBind_ok]
  cases h9 : asNum (mapGet routes ("filtered")) with
  | error e => rfl
  | ok filtered =>
  rw [h9] at hb
  simp only [isErrB_ok, Bool.false_or] at hb
  simp only [exceptBind_ok]
  cases h10 : asNum (mapGet routes ("preferred")) with
  | error e => rfl
  | ok preferred =>
  rw [h10] at hb
  simp at hb

theorem parseNeighboursList_err_of_mem (now : Int) (cfg : Config) :
    ∀ (ps : GoMap) (pid : String) (proto : GoValue), (pid, proto) ∈ ps →
    isErrB (parseNeighbour now cfg pid proto) = true →
    isErrB (parseNeighboursList now cfg ps) = true := by
  intro ps
  induction ps with
  | nil => intro pid proto hmem _; cases hmem
  | cons p rest ih =>
    intro pid proto hmem herr
    cases hmem with
    | head =>
      obtain ⟨e, he⟩ := (isErrB_true_iff _).mp herr
      unfold parseNeighboursList
      rw [he]
      rfl
    | tail _ hmem2 =>
      unfold parseNeighboursList
      cases hh : parseNeighbour now cfg p.1 p.2 with
      | error e => rfl
      | ok n =>
        simp only [exceptBind_ok]
        have := ih pid proto hmem2 herr
        obtain ⟨e, he⟩ := (isErrB_true_iff _).mp this
        rw [he]
        rfl

/-- C2: a protocols entry that is missing or mistypes a mandatory field
(neighbour address, ASN, state, or a per-session route counter) makes
parseNeighbours fail as a whole, returning an error and never any list
of neighbours. -/
theorem c2_mandatory_field (now : Int) (cfg : Config) (bird : GoMap) (ps : GoMap)
    (pid : String) (proto : GoValue)
    (hp : mapGet bird ("protocols") = GoValue.vmap ps)
    (hmem : (pid, proto) ∈ ps)
    (hb : mandatoryFieldBad proto = true) :
    (∃ e, parseNeighbours now bird cfg = .error e) ∧
    (∀ ns, parseNeighbours now bird cfg ≠ .ok ns) := by
  have herr : isErrB (parseNeighboursList now cfg ps) = true :=
    parseNeighboursList_err_of_mem now cfg ps pid proto hmem
      (parseNeighbour_err_of_bad now cfg pid proto hb)
  obtain ⟨e, he⟩ := (isErrB_true_iff _).mp herr
  have hres : parseNeighbours now bird cfg = .error e := by
    unfold parseNeighbours
    rw [hp, show asMap (GoValue.vmap ps) = .ok ps from rfl]
    simp only [exceptBind_ok]
    rw [he]
    rfl
  refine ⟨⟨e, hres⟩, ?_⟩
  intro ns hok
  rw [hres] at hok
  exact Except.noConfusion hok

theorem c2_witness :
    mandatoryFieldBad c2proto = true ∧
    (∃ e, parseNeighbours 0 c2bird { Timezone := "UTC" } = .error e) ∧
    (∀ ns, parseNeighbours 0 c2bird { Timezone := "UTC" } ≠ .ok ns) := by
  have h := c2_mandatory_field 0 { Timezone := "UTC" } c2bird [("p1", c2proto)]
    ("p1") c2proto rfl (List.mem_singleton.mpr rfl) (by decide)
  exact ⟨by decide, h.1, h.2⟩

theorem updateLoop_sources (fetch : Nat → Except String RoutesResponse) (now : Int) :
    ∀ (l : List Nat) (st : RoutesStore), (updateLoop fetch now l st).sources = st.sources := by
  intro l
  induction l with
  | nil => intro st; rfl
  | cons src rest ih => intro st; exact ih _

theorem updateLoop_configMap (fetch : Nat → Except String RoutesResponse) (now : Int) :
    ∀ (l : List Nat) (st : RoutesStore),
      (updateLoop fetch now l st).configMap = st.configMap := by
  intro l
  induction l with
  | nil => intro st; rfl
  | cons src rest ih => intro st; exact ih _

theorem updateLoop_not_mem (fetch : Nat → Except String RoutesResponse) (now : Int) :
    ∀ (l : List Nat) (st : RoutesStore) (src : Nat), src ∉ l →
      (updateLoop fetch now l st).statusMap src = st.statusMap src ∧
      (updateLoop fetch now l st).routesMap src = st.routesMap src := by
  intro l
  induction l with
  | nil => intro st src _; exact ⟨rfl, rfl⟩
  | cons a rest ih =>
    intro st src hnm
    have hne : src ≠ a := fun he => hnm (he ▸ List.mem_cons_self a rest)
    have hrest : src ∉ rest := fun hm => hnm (List.mem_cons_of_mem a hm)
    unfold updateLoop
    obtain ⟨hs, hr⟩ := ih _ src hrest
    rw [hs, hr]
    constructor
    · show updAt st.statusMap a _ src = st.statusMap src
      unfold updAt
      rw [if_neg hne]
    · show updAt st.routesMap a _ src = st.routesMap src
      unfold updAt
      rw [if_neg hne]

theorem updateLoop_mem (fetch : Nat → Except String RoutesResponse) (now : Int) :
    ∀ (l : List Nat) (st : RoutesStore) (src : Nat), l.Nodup → src ∈ l →
      (updateLoop fetch now l st).statusMap src =
        (refreshStep (st.statusMap src) (st.routesMap src) (fetch src) now).1 ∧
      (updateLoop fetch now l st).routesMap src =
        (refreshStep (st.statusMap src) (st.routesMap src) (fetch src) now).2.1 := by
  intro l
  induction l with
  | nil => intro st src _ hm; cases hm
  | cons a rest ih =>
    intro st src hnd hm
    have hnd2 := List.nodup_cons.mp hnd
    unfold updateLoop
    rcases List.mem_cons.mp hm with he | hm2
    · subst he
      obtain ⟨hs, hr⟩ := updateLoop_not_mem fetch now rest
        { st with
          statusMap := updAt st.statusMap src
            (refreshStep (st.statusMap src) (st.routesMap src) (fetch src) now).1,
          routesMap := updAt st.routesMap src
            (refreshStep (st.statusMap src) (st.routesMap src) (fetch src) now).2.1 }
        src hnd2.1
      rw [hs, hr]
      constructor
      · show updAt st.statusMap src
          (refreshStep (st.statusMap src) (st.routesMap src) (fetch src) now).1 src = _
        unfold updAt
        rw [if_pos rfl]
      · show updAt st.routesMap src
          (refreshStep (st.statusMap src) (st.routesMap src) (fetch src) now).2.1 src = _
        unfold updAt
        rw [if_pos rfl]
    · have hne : src ≠ a := by
        intro he
        subst he
        exact hnd2.1 hm2
      obtain ⟨hs, hr⟩ := ih
        { st with
          statusMap := updAt st.statusMap a
            (refreshStep (st.statusMap a) (st.routesMap a) (fetch a) now).1,
          routesMap := updAt st.routesMap a
            (refreshStep (st.statusMap a) (st.routesMap a) (fetch a) now).2.1 }
        src hnd2.2 hm2
      rw [hs, hr]
      have P1 : updAt st.statusMap a
          (refreshStep (st.statusMap a) (st.routesMap a) (fetch a) now).1 src =
          st.statusMap src := by
        unfold updAt
        rw [if_neg hne]
      have P2 : updAt st.routesMap a
          (refreshStep (st.statusMap a) (st.routesMap a) (fetch a) now).2.1 src =
          st.routesMap src := by
        unfold updAt
        rw [if_neg hne]
      constructor
      · show (refreshStep (updAt st.statusMap a
            (refreshStep (st.statusMap a) (st.routesMap a) (fetch a) now).1 src)
            (updAt st.routesMap a
            (refreshStep (st.statusMap a) (st.routesMap a) (fetch a) now).2.1 src)
            (fetch src) now).1 = _
        rw [P1, P2]
      · show (refreshStep (updAt st.statusMap a
            (refreshStep (st.statusMap a) (st.routesMap a) (fetch a) now).1 src)
            (updAt st.routesMap a
            (refreshStep (st.statusMap a) (st.routesMap a) (fetch a) now).2.1 src)
            (fetch src) now).2.1 = _
        rw [P1, P2]

theorem refreshStep_err (status : StoreStatus) (cached : RoutesResponse) (e : String)
    (now : Int) (h : status.State ≠ STATE_UPDATING) :
    refreshStep status cached (.error e) now =
      ({ LastRefresh := now, LastError := some e, State := STATE_ERROR },
       cached, [STATE_UPDATING, STATE_ERROR]) := by
  unfold refreshStep
  rw [if_neg h]

/-- C3: when the fetch of one backend fails during an update pass, the
cached response of that backend is untouched, only its status entry is
replaced with ERROR carrying the error and the current timestamp, the
configuration is untouched, and the Stats summary for that backend
still reports the counts of the retained snapshot while its state reads
ERROR. -/
theorem c3_stale_serve (store : RoutesStore)
    (fetch : Nat → Except String RoutesResponse) (now : Int) (src : Nat) (e : String)
    (hnd : store.sources.Nodup) (hmem : src ∈ store.sources)
    (hst : (store.statusMap src).State ≠ STATE_UPDATING)
    (hf : fetch src = .error e) :
    (store.update fetch now).routesMap src = store.routesMap src ∧
    (store.update fetch now).statusMap src =
      { LastRefresh := now, LastError := some e, State := STATE_ERROR } ∧
    (store.update fetch now).configMap = store.configMap ∧
    serverStatsOf (store.update fetch now) src =
      { Name := (store.configMap src).Name,
        Routes := { Filtered := (store.routesMap src).Filtered.length,
                    Imported := (store.routesMap src).Imported.length },
        State := "ERROR", UpdatedAt := now } ∧
    serverStatsOf (store.update fetch now) src ∈
      ((store.update fetch now).Stats).RouteServers := by
  unfold RoutesStore.update
  obtain ⟨hs, hr⟩ := updateLoop_mem fetch now store.sources store src
    (by exact hnd) (by exact hmem)
  rw [hf, refreshStep_err (store.statusMap src) (store.routesMap src) e now hst] at hs hr
  have hs2 : (updateLoop fetch now store.sources store).statusMap src =
      { LastRefresh := now, LastError := some e, State := STATE_ERROR } := hs
  have hr2 : (updateLoop fetch now store.sources store).routesMap src =
      store.routesMap src := hr
  have hconf : (updateLoop fetch now store.sources store).configMap = store.configMap :=
    updateLoop_configMap fetch now store.sources store
  have hsrcs : (updateLoop fetch now store.sources store).sources = store.sources :=
    updateLoop_sources fetch now store.sources store
  have hstats : serverStatsOf (updateLoop fetch now store.sources store) src =
      { Name := (store.configMap src).Name,
        Routes := { Filtered := (store.routesMap src).Filtered.length,
                    Imported := (store.routesMap src).Imported.length },
        State := "ERROR", UpdatedAt := now } := by
    unfold serverStatsOf
    rw [hs2, hr2, hconf]
    rfl
  refine ⟨hr2, hs2, hconf, hstats, ?_⟩
  show serverStatsOf (updateLoop fetch now store.sources store) src ∈
    ((updateLoop fetch now store.sources store).sources.map
      (serverStatsOf (updateLoop fetch now store.sources store)))
  rw [hsrcs]
  exact List.mem_map_of_mem _ hmem

theorem c3_witness :
    (c3store.update c3fetch 77).routesMap 0 = c3store.routesMap 0 ∧
    (c3store.update c3fetch 77).statusMap 0 =
      { LastRefresh := 77, LastError := some ("connection refused"),
        State := STATE_ERROR } ∧
    (c3store.update c3fetch 77).configMap = c3store.configMap ∧
    serverStatsOf (c3store.update c3fetch 77) 0 =
      { Name := (c3store.configMap 0).Name,
        Routes := { Filtered := (c3store.routesMap 0).Filtered.length,
                    Imported := (c3store.routesMap 0).Imported.length },
        State := "ERROR", UpdatedAt := 77 } ∧
    serverStatsOf (c3store.update c3fetch 77) 0 ∈
      ((c3store.update c3fetch 77).Stats).RouteServers :=
  c3_stale_serve c3store c3fetch 77 0 ("connection refused")
    (by decide) (by decide) (by decide) rfl

theorem runAttempts_trace :
    ∀ (attempts : List (Except String RoutesResponse × Int))
      (status : StoreStatus) (cached : RoutesResponse),
      status.State ≠ STATE_UPDATING →
      (runAttempts status cached attempts).2.2 =
        (attempts.map (fun a => [STATE_UPDATING, attemptResult a.1])).flatten := by
  intro attempts
  induction attempts with
  | nil => intro status cached _; rfl
  | cons a rest ih =>
    intro status cached hst
    unfold runAttempts
    cases hf : a.1 with
    | error e =>
      rw [show refreshStep status cached (Except.error e) a.2 =
          ({ LastRefresh := a.2, LastError := some e, State := STATE_ERROR },
           cached, [STATE_UPDATING, STATE_ERROR]) from by
        unfold refreshStep
        rw [if_neg hst]]
      show [STATE_UPDATING, STATE_ERROR] ++
        (runAttempts { LastRefresh := a.2, LastError := some e, State := STATE_ERROR }
          cached rest).2.2 = _
      rw [ih { LastRefresh := a.2, LastError := some e, State := STATE_ERROR }
        cached (by intro hh; simp [STATE_ERROR, STATE_UPDATING] at hh)]
      rw [List.map_cons, hf]
      rfl
    | ok routes =>
      rw [show refreshStep status cached (Except.ok routes) a.2 =
          ({ LastRefresh := a.2, LastError := none, State := STATE_READY },
           routes, [STATE_UPDATING, STATE_READY]) from by
        unfold refreshStep
        rw [if_neg hst]]
      show [STATE_UPDATING, STATE_READY] ++
        (runAttempts { LastRefresh := a.2, LastError := none, State := STATE_READY }
          routes rest).2.2 = _
      rw [ih { LastRefresh := a.2, LastError := none, State := STATE_READY }
        routes (by intro hh; simp [STATE_READY, STATE_UPDATING] at hh)]
      rw [List.map_cons, hf]
      rfl

/-- C4: a fresh store starts every backend in INIT; a refresh attempt
finding the state UPDATING is a no-op that records nothing and changes
nothing; and starting from INIT, a sequence of attempts records exactly
the alternation UPDATING followed by READY on a successful fetch or
ERROR on a failed one, once per attempt, so the full recorded sequence
is INIT then that alternation and no other transition occurs. -/
theorem c4_state_machine :
    (∀ (cfgs : List (Nat × SourceConfig)) (src : Nat),
      (NewRoutesStore cfgs).statusMap src =
        { LastRefresh := 0, LastError := none, State := STATE_INIT }) ∧
    (∀ (status : StoreStatus) (cached : RoutesResponse)
       (fetch : Except String RoutesResponse) (now : Int),
      status.State = STATE_UPDATING →
      refreshStep status cached fetch now = (status, cached, [])) ∧
    (∀ (cached : RoutesResponse) (attempts : List (Except String RoutesResponse × Int)),
      STATE_INIT ::
        (runAttempts { LastRefresh := 0, LastError := none, State := STATE_INIT }
          cached attempts).2.2 =
      STATE_INIT ::
        (attempts.map (fun a => [STATE_UPDATING, attemptResult a.1])).flatten) := by
  refine ⟨?_, ?_, ?_⟩
  · intro cfgs src
    rfl
  · intro status cached fetch now hst
    unfold refreshStep
    rw [if_pos hst]
  · intro cached attempts
    rw [runAttempts_trace attempts _ cached (by intro hh; exact absurd hh (by decide))]

theorem c4_witness :
    refreshStep { LastRefresh := 0, LastError := none, State := STATE_UPDATING }
      sampleResp (.ok sampleResp2) 5 =
      ({ LastRefresh := 0, LastError := none, State := STATE_UPDATING },
       sampleResp, []) ∧
    STATE_INIT ::
      (runAttempts { LastRefresh := 0, LastError := none, State := STATE_INIT }
        sampleResp [(.ok sampleResp2, 5), (.error ("x"), 9)]).2.2 =
      [STATE_INIT, STATE_UPDATING, STATE_READY, STATE_UPDATING, STATE_ERROR] := by
  constructor
  · exact c4_state_machine.2.1 _ sampleResp (.ok sampleResp2) 5 rfl
  · rw [c4_state_machine.2.2 sampleResp [(.ok sampleResp2, 5), (.error ("x"), 9)]]
    rfl

theorem parseNeighbour_ok_id (now : Int) (cfg : Config) (pid : String)
    (proto : GoValue) (n : Neighbour)
    (h : parseNeighbour now cfg pid proto = .ok n) : n.Id = pid := by
  unfold parseNeighbour at h
  cases h1 : asMap proto with
  | error e => rw [h1] at h; exact Except.noConfusion h
  | ok protocol =>
  rw [h1] at h
  simp only [exceptBind_ok] at h
  cases h2 : asMap (mapGet protocol ("routes")) with
  | error e => rw [h2] at h; exact Except.noConfusion h
  | ok routes =>
  rw [h2] at h
  simp only [exceptBind_ok] at h
  cases h3 : asString (mapGet protocol ("neighbor_address")) with
  | error e => rw [h3] at h; exact Except.noConfusion h
  | ok address =>
  rw [h3] at h
  simp only [exceptBind_ok] at h
  cases h4 : asNum (mapGet protocol ("neighbor_as")) with
  | error e => rw [h4] at h; exact Except.noConfusion h
  | ok asn =>
  rw [h4] at h
  simp only [exceptBind_ok] at h
  cases h5 : asString (mapGet protocol ("state")) with
  | error e => rw [h5] at h; exact Except.noConfusion h
  | ok state =>
  rw [h5] at h
  simp only [exceptBind_ok] at h
  cases h6 : asString (mapGet protocol ("description")) with
  | error e => rw [h6] at h; exact Except.noConfusion h
  | ok descr =>
  rw [h6] at h
  simp only [exceptBind_ok] at h
  cases h7 : asNum (mapGet routes ("imported")) with
  | error e => rw [h7] at h; exact Except.noConfusion h
  | ok imported =>
  rw [h7] at h
  simp only [exceptBind_ok] at h
  cases h8 : asNum (mapGet routes ("exported")) with
  | error e => rw [h8] at h; exact Except.noConfusion h
  | ok exported =>
  rw [h8] at h
  simp only [exceptBind_ok] at h
  cases h9 : asNum (mapGet routes ("filtered")) with
  | error e => rw [h9] at h; exact Except.noConfusion h
  | ok filtered =>
  rw [h9] at h
  simp only [exceptBind_ok] at h
  cases h10 : asNum (mapGet routes ("preferred")) with
  | error e => rw [h10] at h; exact Except.noConfusion h
  | ok preferred =>
  rw [h10] at h
  simp only [exceptBind_ok] at h
  cases h
  rfl

theorem parseNeighboursList_cons_ok (now : Int) (cfg : Config)
    (p : String × GoValue) (ps : GoMap) (l : List Neighbour) :
    parseNeighboursList now cfg (p :: ps) = .ok l ↔
    ∃ n t, parseNeighbour now cfg p.1 p.2 = .ok n ∧
      parseNeighboursList now cfg ps = .ok t ∧ l = n :: t := by
  constructor
  · intro h
    unfold parseNeighboursList at h
    cases h1 : parseNeighbour now cfg p.1 p.2 with
    | error e => rw [h1] at h; exact Except.noConfusion h
    | ok n =>
      rw [h1] at h
      simp only [exceptBind_ok] at h
      cases h2 : parseNeighboursList now cfg ps with
      | error e => rw [h2] at h; exact Except.noConfusion h
      | ok t =>
        rw [h2] at h
        simp only [exceptBind_ok] at h
        cases h
        exact ⟨n, t, rfl, rfl, rfl⟩
  · rintro ⟨n, t, h1, h2, rfl⟩
    unfold parseNeighboursList
    rw [h1, h2]
    rfl

theorem parseNeighboursList_cons (now : Int) (cfg : Config)
    (p : String × GoValue) (ps : GoMap) :
    parseNeighboursList now cfg (p :: ps) =
      (parseNeighbour now cfg p.1 p.2).bind (fun n =>
      (parseNeighboursList now cfg ps).bind (fun ns => .ok (n :: ns))) := rfl

theorem parseNeighboursList_isOk_cons (now : Int) (cfg : Config)
    (p : String × GoValue) (ps : GoMap) :
    isErrB (parseNeighboursList now cfg (p :: ps)) = false ↔
    isErrB (parseNeighbour now cfg p.1 p.2) = false ∧
    isErrB (parseNeighboursList now cfg ps) = false := by
  rw [parseNeighboursList_cons]
  cases h1 : parseNeighbour now cfg p.1 p.2 with
  | error e => simp
  | ok n =>
    simp only [exceptBind_ok, isErrB_ok, true_and]
    cases h2 : parseNeighboursList now cfg ps with
    | error e => simp
    | ok t => simp

theorem parseNeighboursList_isOk_perm (now : Int) (cfg : Config) {ps₁ ps₂ : GoMap}
    (hp : ps₁.Perm ps₂) :
    isErrB (parseNeighboursList now cfg ps₁) = false →
    isErrB (parseNeighboursList now cfg ps₂) = false := by
  induction hp with
  | nil => exact id
  | cons x hp ih =>
    intro h
    rw [parseNeighboursList_isOk_cons] at h ⊢
    exact ⟨h.1, ih h.2⟩
  | swap x y l =>
    intro h
    rw [parseNeighboursList_isOk_cons, parseNeighboursList_isOk_cons] at h ⊢
    exact ⟨h.2.1, h.1, h.2.2⟩
  | trans hp1 hp2 ih1 ih2 => exact fun h => ih2 (ih1 h)

theorem parseNeighboursList_ok_perm (now : Int) (cfg : Config) {ps₁ ps₂ : GoMap}
    (hp : ps₁.Perm ps₂) :
    ∀ {l₁ l₂ : List Neighbour}, parseNeighboursList now cfg ps₁ = .ok l₁ →
    parseNeighboursList now cfg ps₂ = .ok l₂ → l₁.Perm l₂ := by
  induction hp with
  | nil =>
    intro l₁ l₂ h₁ h₂
    injection h₁ with e₁
    injection h₂ with e₂
    rw [← e₁, ← e₂]
  | cons x hp ih =>
    intro l₁ l₂ h₁ h₂
    obtain ⟨n, t, hn, ht, rfl⟩ := (parseNeighboursList_cons_ok _ _ _ _ _).mp h₁
    obtain ⟨n', t', hn', ht', rfl⟩ := (parseNeighboursList_cons_ok _ _ _ _ _).mp h₂
    rw [hn] at hn'
    injection hn' with he
    rw [← he]
    exact List.Perm.cons n (ih ht ht')
  | swap x y l =>
    intro l₁ l₂ h₁ h₂
    obtain ⟨ny, t1, hny, h1t, rfl⟩ := (parseNeighboursList_cons_ok _ _ _ _ _).mp h₁
    obtain ⟨nx, t2, hnx, h2t, rfl⟩ := (parseNeighboursList_cons_ok _ _ _ _ _).mp h1t
    obtain ⟨nx2, t3, hnx2, h3t, rfl⟩ := (parseNeighboursList_cons_ok _ _ _ _ _).mp h₂
    obtain ⟨ny2, t4, hny2, h4t, rfl⟩ := (parseNeighboursList_cons_ok _ _ _ _ _).mp h3t
    rw [hny] at hny2
    injection hny2 with he1
    rw [hnx] at hnx2
    injection hnx2 with he2
    rw [h2t] at h4t
    injection h4t with he3
    rw [← he1, ← he2, ← he3]
    exact List.Perm.swap nx ny t2
  | trans hp1 hp2 ih1 ih2 =>
    intro l₁ l₂ h₁ h₂
    have hok : isErrB (parseNeighboursList now cfg _) = false :=
      parseNeighboursList_isOk_perm now cfg hp1 (by rw [h₁]; rfl)
    obtain ⟨lm, hlm⟩ := (isErrB_false_iff _).mp hok
    exact (ih1 h₁ hlm).trans (ih2 hlm h₂)

theorem parseNeighboursList_ok_ids (now : Int) (cfg : Config) :
    ∀ (ps : GoMap) (l : List Neighbour),
    parseNeighboursList now cfg ps = .ok l →
    l.map (fun n => n.Id) = ps.map Prod.fst := by
  intro ps
  induction ps with
  | nil =>
    intro l h
    injection h with e
    rw [← e]
    rfl
  | cons p rest ih =>
    intro l h
    obtain ⟨n, t, hn, ht, rfl⟩ := (parseNeighboursList_cons_ok _ _ _ _ _).mp h
    simp only [List.map_cons]
    rw [parseNeighbour_ok_id now cfg p.1 p.2 n hn, ih t ht]

theorem sortNeighbours_eq_of_perm {l₁ l₂ : List Neighbour} (hp : l₁.Perm l₂)
    (hnd : (l₁.map (fun n => n.Id)).Nodup) :
    sortNeighbours l₁ = sortNeighbours l₂ := by
  have hperm : (sortNeighbours l₁).Perm (sortNeighbours l₂) :=
    ((List.perm_insertionSort neighbourLe l₁).trans hp).trans
      (List.perm_insertionSort neighbourLe l₂).symm
  have hs₁ : List.Sorted neighbourLe (sortNeighbours l₁) :=
    List.sorted_insertionSort neighbourLe l₁
  have hs₂ : List.Sorted neighbourLe (sortNeighbours l₂) :=
    List.sorted_insertionSort neighbourLe l₂
  have hnd₁ : ((sortNeighbours l₁).map (fun n => n.Id)).Nodup :=
    (((List.perm_insertionSort neighbourLe l₁).map (fun n => n.Id)).nodup_iff).mpr hnd
  have hnd₂ : ((sortNeighbours l₂).map (fun n => n.Id)).Nodup := by
    refine (((List.perm_insertionSort neighbourLe l₂).map (fun n => n.Id)).nodup_iff).mpr ?_
    exact ((hp.map (fun n => n.Id)).nodup_iff).mp hnd
  have hpw₁ : List.Pairwise (fun a b : Neighbour => neighbourLe a b ∧ a.Id ≠ b.Id)
      (sortNeighbours l₁) :=
    List.Pairwise.and hs₁ (List.pairwise_map.mp hnd₁)
  have hpw₂ : List.Pairwise (fun a b : Neighbour => neighbourLe a b ∧ a.Id ≠ b.Id)
      (sortNeighbours l₂) :=
    List.Pairwise.and hs₂ (List.pairwise_map.mp hnd₂)
  exact @List.eq_of_perm_of_sorted Neighbour
    (fun a b => neighbourLe a b ∧ a.Id ≠ b.Id)
    ⟨fun a b hab hba => absurd (strLe_antisymm hab.1 hba.1) hab.2⟩
    _ _ hperm hpw₁ hpw₂

/-- C6: parsing is deterministic up to the enumeration order of the raw
protocols map: two parses of the same entries under any two enumeration
orders return the same neighbour list (identical ordering and field
values, durations included, as both parses share one instant), because
parseNeighbours sorts by neighbour identifier before returning; and
every successful parseNeighbours and parseRoutes result is sorted by
the respective total order over the entities own fields. -/
theorem c6_deterministic_parse :
    (∀ (ps₁ ps₂ : GoMap) (now : Int) (cfg : Config) (ns₁ ns₂ : List Neighbour),
      ps₁.Perm ps₂ → (ps₁.map Prod.fst).Nodup →
      parseNeighbours now (mkBird ps₁) cfg = .ok ns₁ →
      parseNeighbours now (mkBird ps₂) cfg = .ok ns₂ → ns₁ = ns₂) ∧
    (∀ (now : Int) (bird : GoMap) (cfg : Config) (ns : List Neighbour),
      parseNeighbours now bird cfg = .ok ns → List.Sorted neighbourLe ns) ∧
    (∀ (now : Int) (bird : GoMap) (cfg : Config) (rs : List Route),
      parseRoutes now bird cfg = .ok rs → List.Sorted routeLe rs) := by
  refine ⟨?_, ?_, ?_⟩
  · intro ps₁ ps₂ now cfg ns₁ ns₂ hp hnd h₁ h₂
    have e₁ : parseNeighbours now (mkBird ps₁) cfg =
        (parseNeighboursList now cfg ps₁).bind (fun ns => .ok (sortNeighbours ns)) := rfl
    have e₂ : parseNeighbours now (mkBird ps₂) cfg =
        (parseNeighboursList now cfg ps₂).bind (fun ns => .ok (sortNeighbours ns)) := rfl
    rw [e₁] at h₁
    rw [e₂] at h₂
    cases hl₁ : parseNeighboursList now cfg ps₁ with
    | error e => rw [hl₁] at h₁; exact Except.noConfusion h₁
    | ok l₁ =>
    rw [hl₁] at h₁
    simp only [exceptBind_ok] at h₁
    injection h₁ with he₁
    cases hl₂ : parseNeighboursList now cfg ps₂ with
    | error e => rw [hl₂] at h₂; exact Except.noConfusion h₂
    | ok l₂ =>
    rw [hl₂] at h₂
    simp only [exceptBind_ok] at h₂
    injection h₂ with he₂
    rw [← he₁, ← he₂]
    have hpl : l₁.Perm l₂ := parseNeighboursList_ok_perm now cfg hp hl₁ hl₂
    have hids : l₁.map (fun n => n.Id) = ps₁.map Prod.fst :=
      parseNeighboursList_ok_ids now cfg ps₁ l₁ hl₁
    have hnd2 : (l₁.map (fun n => n.Id)).Nodup := by rw [hids]; exact hnd
    exact sortNeighbours_eq_of_perm hpl hnd2
  · intro now bird cfg ns h
    unfold parseNeighbours at h
    cases h1 : asMap (mapGet bird ("protocols")) with
    | error e => rw [h1] at h; exact Except.noConfusion h
    | ok ps =>
    rw [h1] at h
    simp only [exceptBind_ok] at h
    cases h2 : parseNeighboursList now cfg ps with
    | error e => rw [h2] at h; exact Except.noConfusion h
    | ok l =>
    rw [h2] at h
    simp only [exceptBind_ok] at h
    injection h with he
    rw [← he]
    exact List.sorted_insertionSort neighbourLe l
  · intro now bird cfg rs h
    unfold parseRoutes at h
    cases h1 : asList (mapGet bird ("routes")) with
    | error e => rw [h1] at h; exact Except.noConfusion h
    | ok birdRoutes =>
    rw [h1] at h
    simp only [exceptBind_ok] at h
    cases h2 : parseRoutesList now cfg birdRoutes with
    | error e => rw [h2] at h; exact Except.noConfusion h
    | ok l =>
    rw [h2] at h
    simp only [exceptBind_ok] at h
    injection h with he
    rw [← he]
    exact List.sorted_insertionSort routeLe l

theorem c6_witness :
    c6ps1.Perm c6ps2 ∧ (c6ps1.map Prod.fst).Nodup ∧
    parseNeighbours 100 (mkBird c6ps1) { Timezone := "UTC" } = .ok c6res ∧
    parseNeighbours 100 (mkBird c6ps2) { Timezone := "UTC" } = .ok c6res ∧
    List.Sorted routeLe
      ((parseRoutes 100 c6birdRoutes { Timezone := "UTC" }).toOption.getD []) := by
  have hperm : c6ps1.Perm c6ps2 :=
    List.Perm.swap ("p1", sampleProto ("a")) ("p2", sampleProto ("b")) []
  have h1 : parseNeighbours 100 (mkBird c6ps1) { Timezone := "UTC" } = .ok c6res := rfl
  have h2 : parseNeighbours 100 (mkBird c6ps2) { Timezone := "UTC" } =
      .ok ((parseNeighbours 100 (mkBird c6ps2)
        { Timezone := "UTC" }).toOption.getD []) := rfl
  have heq := c6_deterministic_parse.1 c6ps1 c6ps2 100 { Timezone := "UTC" }
    c6res ((parseNeighbours 100 (mkBird c6ps2) { Timezone := "UTC" }).toOption.getD [])
    hperm (by decide) h1 h2
  refine ⟨hperm, by decide, h1, ?_, ?_⟩
  · rw [h2, ← heq]
  · exact c6_deterministic_parse.2.2 100 c6birdRoutes { Timezone := "UTC" }
      ((parseRoutes 100 c6birdRoutes { Timezone := "UTC" }).toOption.getD []) rfl
